import Mathlib

/-!
Shallow embedding of `src/xbmcswift2/cli/app.py` — the CLI navigation engine
of xbmcswift2 (run modes `once`, `interactive`, `crawl`).

Modelling conventions:
* `Item` embeds the parts of a listing item that `app.py` reads: `get_path()`
  and `get_played()`, plus the display `label`.  `app.py` never reads a
  directory flag, so none is modelled.
* The plugin is the external collaborator "Plugin Invoker": running the
  plugin after patching its path to `url` yields the item list `listing url`,
  and afterwards the plugin's `_update_listing` flag reads `updateListing url`
  (the flag describes the just-rendered listing).
* Python's `parent_stack` is a stack with its top at the END of the list
  (`append`/`pop`); here the top is the HEAD of a `List Item`, so `append`
  becomes `::` and `pop` becomes head removal.
* `get_user_choice(items)` returns either None (quit) or one of the displayed
  objects.  The identity test `selected_item == parent_stack[-1]` holds
  exactly when the user picked the prepended parent object, which sits at
  index 0 of the displayed list (stack entries are built by
  `ListItem.from_dict` with `played = False`, so the played-filter keeps
  them).  A selection is therefore modelled as an index `i` into the
  displayed items, and "selected the parent" as `parentStack ≠ [] ∧ i = 0`.
* Python's `set` becomes `Finset String`; `set.pop` removes an arbitrary
  element, modelled by a caller-supplied `choose : Finset String → String`
  that is only assumed to return a member on nonempty sets.
* Calls to the Plugin Invoker are the observable trace of a crawl; the
  `fetched` field of `CrawlState` logs them (the initial `once` call
  included) so that "how often is a path fetched" is statable.
-/

namespace App

/-- A listing item as read by `app.py`: `label`, `get_path()`, `get_played()`. -/
structure Item where
  label : String
  path : String
  played : Bool
deriving DecidableEq, Repr

/-- Source `ListItem.from_dict(label='..', path=url)`: a fresh synthetic item, not played. -/
def Item.fromDict (label path : String) : Item :=
  { label := label, path := path, played := false }

/-- The external Plugin Invoker: patching the plugin to `url` and calling
`plugin.run()` returns `listing url`; immediately afterwards the plugin's
`_update_listing` flag reads `updateListing url`. -/
structure PluginModel where
  listing : String → List Item
  updateListing : String → Bool

/-- Source `once(plugin, parent_item)` (app.py line 147): run the plugin for its
currently patched url, then insert `parent_item` at index 0 when given.
(`clear_added_items` and `display_listitems` are side effects with no impact
on the returned sequence.) -/
def once (P : PluginModel) (url : String) (parent_item : Option Item) : List Item :=
  match parent_item with
  | some p => p :: P.listing url
  | none => P.listing url

/-- The interactive navigator's observable state: the parent back-stack
(top = head), the plugin's currently patched url (`plugin.request.url`),
and the items just displayed to the user (played items filtered out). -/
structure NavState where
  parentStack : List Item
  currentUrl : String
  items : List Item
deriving DecidableEq, Repr

/-- The state shown after patching the plugin to `url` with back-stack
`stack`: `parent_item` is the stack top if any, and the displayed items are
`once(plugin, parent_item)` with played items filtered out
(app.py lines 196 to 202). -/
def navAfter (P : PluginModel) (stack : List Item) (url : String) : NavState :=
  { parentStack := stack
    currentUrl := url
    items := (once P url stack.head?).filter (fun it => !it.played) }

/-- The initial interactive state (app.py lines 164 to 165): empty stack,
items from one parentless `once` call at the starting url. -/
def navInit (P : PluginModel) (start : String) : NavState :=
  navAfter P [] start

/-- Placeholder item returned by out-of-range selection lookups; every
theorem about a selection assumes a valid index, so it is never reached. -/
def dummyItem : Item :=
  { label := "", path := "", played := false }

/-- Outcome of one loop iteration of `interactive`: either the next state, or
the uncaught `IndexError` from `parent_stack.pop()` on an empty list. -/
inductive StepOutcome where
  | next (s : NavState)
  | stackError
deriving DecidableEq, Repr

/-- One iteration of the `interactive` loop body (app.py lines 169 to 203),
given the index `i` of the user's selection among `s.items`:

* selection is the stack-top parent (index 0 with a nonempty stack) and
  `_update_listing` holds: pop the incorrect parent, pop again, and the
  second popped item becomes `selected_item` (its path is patched next);
  the second pop on an empty stack is Python's uncaught `IndexError`;
* selection is the stack-top parent, `_update_listing` false: pop once and
  navigate to the popped parent's path;
* otherwise with `_update_listing` true: leave the stack alone;
* otherwise: push `ListItem.from_dict(label='..', path=plugin.request.url)`.

Finally the plugin is patched to the selected path and the next listing is
displayed (`navAfter`). -/
def interactiveStep (P : PluginModel) (s : NavState) (i : Nat) : StepOutcome :=
  if s.parentStack ≠ [] ∧ i = 0 then
    if P.updateListing s.currentUrl then
      match s.parentStack with
      | _ :: sel :: rest => .next (navAfter P rest sel.path)
      | _ => .stackError
    else
      match s.parentStack with
      | sel :: rest => .next (navAfter P rest sel.path)
      | [] => .stackError
  else
    let sel := s.items.getD i dummyItem
    if P.updateListing s.currentUrl then
      .next (navAfter P s.parentStack sel.path)
    else
      .next (navAfter P (Item.fromDict ".." s.currentUrl :: s.parentStack) sel.path)

/-- Crawl state: `paths_visited`, `paths_to_visit`, and the trace of paths
passed to the Plugin Invoker so far (in call order). -/
structure CrawlState where
  visited : Finset String
  frontier : Finset String
  fetched : List String
deriving DecidableEq

/-- Source `set(item.get_path() for item in items)`. -/
def pathsOf (items : List Item) : Finset String :=
  (items.map Item.path).toFinset

/-- A pop strategy for Python's `set.pop()`: on a nonempty set it returns a
member; which member is unspecified. -/
def validChoice (choose : Finset String → String) : Prop :=
  ∀ s : Finset String, s.Nonempty → choose s ∈ s

/-- State after the initial `once` call of `crawl` (app.py lines 213 to 214):
nothing visited, the frontier holds the paths of the starting listing, and
the Plugin Invoker has been called once, on the starting url. -/
def crawlInit (P : PluginModel) (start : String) : CrawlState :=
  { visited := ∅
    frontier := pathsOf (once P start none)
    fetched := [start] }

/-- One iteration of the `crawl` loop body (app.py lines 217 to 227):
pop a path from the frontier, mark it visited, fetch its listing, and add
every discovered path that is not already visited back to the frontier. -/
def crawlStep (P : PluginModel) (choose : Finset String → String)
    (st : CrawlState) : CrawlState :=
  let path := choose st.frontier
  let visited' := insert path st.visited
  let new_paths := pathsOf (once P path none)
  { visited := visited'
    frontier := st.frontier.erase path ∪ new_paths.filter (fun q => q ∉ visited')
    fetched := st.fetched ++ [path] }

/-- The `crawl` loop with an always-confirming user, run for `fuel`
iterations at most; it stops as soon as the frontier is empty
(`while paths_to_visit and continue_or_quit()`). -/
def crawlRun (P : PluginModel) (choose : Finset String → String) :
    Nat → CrawlState → CrawlState
  | 0, st => st
  | n + 1, st =>
    if st.frontier = ∅ then st else crawlRun P choose n (crawlStep P choose st)

/-! Concrete plugin models and pop strategies used in closed theorems and
witnesses. -/

/-- A plugin whose starting listing references the starting path itself:
`plugin://a/` returns one directory item whose path is again `plugin://a/`. -/
def P1 : PluginModel :=
  { listing := fun p =>
      if p = "plugin://a/" then [{ label := "self", path := "plugin://a/", played := false }]
      else []
    updateListing := fun _ => false }

/-- Pop strategy returning `plugin://a/`.  In the run of
`C1_crawl_refetches_start_path` every pop happens on the frontier
`{plugin://a/}`, so this agrees with Python's `set.pop` there. -/
def chooseA : Finset String → String := fun _ => "plugin://a/"

/-- A pop strategy valid on every nonempty set: take the least element. -/
def minChoose : Finset String → String :=
  fun s => if h : s.Nonempty then s.min' h else ""

/-- Update-in-place-everywhere plugin with empty listings. -/
def Pup : PluginModel :=
  { listing := fun _ => [], updateListing := fun _ => true }

/-- Never-update-in-place plugin: `plugin://a/` lists one child `plugin://a/x`. -/
def P5 : PluginModel :=
  { listing := fun p =>
      if p = "plugin://a/" then [{ label := "x", path := "plugin://a/x", played := false }]
      else []
    updateListing := fun _ => false }

/-- Plugin whose every listing holds one already-played item and one fresh item. -/
def P6 : PluginModel :=
  { listing := fun _ =>
      [{ label := "p", path := "plugin://a/p", played := true },
       { label := "q", path := "plugin://a/q", played := false }]
    updateListing := fun _ => false }

/-- The listing graph of the crawl scenario: `plugin://a/` lists `x` and `y`,
`plugin://a/x` lists nothing, `plugin://a/y` lists `x` again. -/
def P8 : PluginModel :=
  { listing := fun p =>
      if p = "plugin://a/" then
        [{ label := "x", path := "plugin://a/x", played := false },
         { label := "y", path := "plugin://a/y", played := false }]
      else if p = "plugin://a/y" then
        [{ label := "x", path := "plugin://a/x", played := false }]
      else []
    updateListing := fun _ => false }

/-- A plugin whose starting listing has one child `plugin://a/b`, and whose
listing at `plugin://a/b` is update-in-place. -/
def P9 : PluginModel :=
  { listing := fun p =>
      if p = "plugin://a/" then [{ label := "b", path := "plugin://a/b", played := false }]
      else []
    updateListing := fun p => p == "plugin://a/b" }

/-- Plugin with empty listings everywhere (for the termination witness). -/
def Ptriv : PluginModel :=
  { listing := fun _ => [], updateListing := fun _ => false }

/-- Plugin whose every listing is a single already-played item. -/
def P10 : PluginModel :=
  { listing := fun _ => [{ label := "p", path := "plugin://a/p", played := true }]
    updateListing := fun _ => false }

/-- A mid-session interactive state with two stacked parents (used as the
concrete input of the double-pop witness). -/
def sC2 : NavState :=
  { parentStack :=
      [Item.fromDict ".." "plugin://p/A", Item.fromDict ".." "plugin://p/B"]
    currentUrl := "plugin://p/cur"
    items := [] }

/-! Helper lemmas shared by the claim theorems. -/

/-- Every item displayed by `navAfter` survived the played-filter. -/
theorem navAfter_all_unplayed (P : PluginModel) (stack : List Item) (url : String) :
    ((navAfter P stack url).items.all fun it => !it.played) = true := by
  simp only [navAfter, List.all_eq_true]
  intro it hit
  exact (List.mem_filter.mp hit).2

/-- Unfolding of one `crawlRun` iteration. -/
theorem crawlRun_succ (P : PluginModel) (choose : Finset String → String)
    (n : Nat) (st : CrawlState) :
    crawlRun P choose (n + 1) st
      = if st.frontier = ∅ then st else crawlRun P choose n (crawlStep P choose st) :=
  rfl

/-- The least-element pop strategy is a valid `set.pop`. -/
theorem minChoose_valid : validChoice minChoose := by
  intro s hs
  simp only [minChoose, dif_pos hs]
  exact s.min'_mem hs

/-! Claim theorems. -/

/-- C7: `once` with a non-null `parent_item` returns that item at index 0
followed by the plugin's own items in their original order; with a null
`parent_item` it returns exactly the plugin's items. -/
theorem C7_once_prepends_parent (P : PluginModel) (url : String) (p : Item) :
    once P url (some p) = p :: P.listing url ∧
    (once P url (some p)).head? = some p ∧
    once P url none = P.listing url :=
  ⟨rfl, rfl, rfl⟩

/-- C2: when the selection is the top-of-stack parent item and the plugin's
update-in-place flag holds for the just-rendered listing, the engine pops
twice and the second popped item's path becomes the next navigation target
(the new current url), with the remaining stack below the two popped
entries. -/
theorem C2_update_double_pop (P : PluginModel) (s : NavState) (a b : Item)
    (rest : List Item) (hstack : s.parentStack = a :: b :: rest)
    (hupd : P.updateListing s.currentUrl = true) :
    interactiveStep P s 0 = .next (navAfter P rest b.path) ∧
    (navAfter P rest b.path).currentUrl = b.path :=
  ⟨by simp [interactiveStep, hstack, hupd], rfl⟩

/-- Witness for C2 at a concrete two-deep stack. -/
theorem C2_witness :
    interactiveStep Pup sC2 0
      = .next (navAfter Pup [] (Item.fromDict ".." "plugin://p/B").path) ∧
    (navAfter Pup [] (Item.fromDict ".." "plugin://p/B").path).currentUrl
      = (Item.fromDict ".." "plugin://p/B").path :=
  C2_update_double_pop Pup sC2 (Item.fromDict ".." "plugin://p/A")
    (Item.fromDict ".." "plugin://p/B") [] rfl rfl

/-- C4: when the selection is not the top-of-stack parent item and the
update-in-place flag holds, the parent stack of the next state is exactly
the old one — it does not grow (so re-selecting an update-in-place
listing's trigger item any number of times leaves the stack unchanged). -/
theorem C4_update_stack_unchanged (P : PluginModel) (s : NavState) (i : Nat)
    (hsel : ¬(s.parentStack ≠ [] ∧ i = 0))
    (hupd : P.updateListing s.currentUrl = true) :
    interactiveStep P s i
      = .next (navAfter P s.parentStack (s.items.getD i dummyItem).path) ∧
    (navAfter P s.parentStack (s.items.getD i dummyItem).path).parentStack
      = s.parentStack :=
  ⟨by simp [interactiveStep, hsel, hupd], rfl⟩

/-- Witness for C4: the initial state of the update-everywhere plugin. -/
theorem C4_witness :
    interactiveStep Pup (navInit Pup "plugin://p/cur") 0
      = .next (navAfter Pup (navInit Pup "plugin://p/cur").parentStack
          ((navInit Pup "plugin://p/cur").items.getD 0 dummyItem).path) ∧
    (navAfter Pup (navInit Pup "plugin://p/cur").parentStack
        ((navInit Pup "plugin://p/cur").items.getD 0 dummyItem).path).parentStack
      = (navInit Pup "plugin://p/cur").parentStack :=
  C4_update_stack_unchanged Pup (navInit Pup "plugin://p/cur") 0 (by decide) rfl

/-- C9: a reachable state in which the double-pop crashes.  Starting `P9` at
`plugin://a/` (a normal listing) and selecting its only item pushes one
parent and enters `plugin://a/b`, whose listing is update-in-place; the
resulting state has a one-element stack, and selecting the top-of-stack
parent item (index 0) there makes the second `parent_stack.pop()` hit an
empty list — the uncaught `IndexError`, not a transition to any state. -/
theorem C9_double_pop_crash :
    interactiveStep P9 (navInit P9 "plugin://a/") 0
      = .next (navAfter P9 [Item.fromDict ".." "plugin://a/"] "plugin://a/b") ∧
    (navAfter P9 [Item.fromDict ".." "plugin://a/"] "plugin://a/b").parentStack.length = 1 ∧
    P9.updateListing
        (navAfter P9 [Item.fromDict ".." "plugin://a/"] "plugin://a/b").currentUrl = true ∧
    (navAfter P9 [Item.fromDict ".." "plugin://a/"] "plugin://a/b").items.getD 0 dummyItem
      = (navAfter P9 [Item.fromDict ".." "plugin://a/"] "plugin://a/b").parentStack.getD 0 dummyItem ∧
    interactiveStep P9 (navAfter P9 [Item.fromDict ".." "plugin://a/"] "plugin://a/b") 0
      = .stackError := by
  decide

/-- C1 (divergence): with the starting listing referencing the starting path
itself, the crawl passes the starting path to the Plugin Invoker twice —
once for the initial listing and once more when it is popped from the
frontier, because the starting path is never placed in `paths_visited`
before the loop.  Every pop of this run happens on the frontier
`{plugin://a/}`, where `chooseA` agrees with any valid `set.pop`. -/
theorem C1_crawl_refetches_start_path :
    chooseA (crawlInit P1 "plugin://a/").frontier ∈ (crawlInit P1 "plugin://a/").frontier ∧
    (crawlRun P1 chooseA 2 (crawlInit P1 "plugin://a/")).fetched
      = ["plugin://a/", "plugin://a/"] ∧
    (crawlRun P1 chooseA 2 (crawlInit P1 "plugin://a/")).fetched.count "plugin://a/" = 2 := by
  decide

/-- C10: crawl never filters by the played flag.  Whatever item the freshly
fetched listing returns — its `played` flag included — its path joins the
frontier as soon as it is not in the visited set (which at filter time
already holds the just-popped path). -/
theorem C10_crawl_ignores_played (P : PluginModel) (choose : Finset String → String)
    (st : CrawlState) (it : Item)
    (hmem : it ∈ once P (choose st.frontier) none)
    (hnew : it.path ∉ insert (choose st.frontier) st.visited) :
    it.path ∈ (crawlStep P choose st).frontier := by
  simp only [crawlStep, Finset.mem_union]
  right
  rw [Finset.mem_filter]
  exact ⟨by simpa [pathsOf] using List.mem_map_of_mem Item.path hmem, hnew⟩

/-- Witness for C10: a played item returned by the fetched listing still has
its path added to the frontier. -/
theorem C10_witness :
    ("plugin://a/p" : String)
      ∈ (crawlStep P10 chooseA
          { visited := ∅, frontier := {"plugin://a/"}, fetched := ["plugin://a/"] }).frontier := by
  have h := C10_crawl_ignores_played P10 chooseA
    { visited := ∅, frontier := {"plugin://a/"}, fetched := ["plugin://a/"] }
    { label := "p", path := "plugin://a/p", played := true }
    (by decide) (by decide)
  exact h

/-- C5: parent round-trip.  From a normal (non-update-in-place) listing the
engine pushes `ListItem.from_dict(label='..', path=plugin.request.url)` and
enters the selected normal directory; selecting the synthetic parent item
(index 0) there pops it and navigates to its stored path — the url of the
listing the user came from. -/
theorem C5_parent_round_trip (P : PluginModel) (s : NavState) (i : Nat)
    (hsel : ¬(s.parentStack ≠ [] ∧ i = 0))
    (hsrc : P.updateListing s.currentUrl = false)
    (hdest : P.updateListing (s.items.getD i dummyItem).path = false) :
    interactiveStep P s i
      = .next (navAfter P (Item.fromDict ".." s.currentUrl :: s.parentStack)
          (s.items.getD i dummyItem).path) ∧
    interactiveStep P
        (navAfter P (Item.fromDict ".." s.currentUrl :: s.parentStack)
          (s.items.getD i dummyItem).path) 0
      = .next (navAfter P s.parentStack s.currentUrl) ∧
    (navAfter P s.parentStack s.currentUrl).currentUrl = s.currentUrl := by
  refine ⟨by simp [interactiveStep, hsel, hsrc], ?_, rfl⟩
  simp only [interactiveStep]
  split
  · split
    · rename_i h'
      have hx : P.updateListing
          (navAfter P (Item.fromDict ".." s.currentUrl :: s.parentStack)
            (s.items.getD i dummyItem).path).currentUrl = false := hdest
      rw [hx] at h'
      exact Bool.noConfusion h'
    · rfl
  · rename_i h
    exact absurd ⟨by simp [navAfter], by trivial⟩ h

/-- Witness for C5: descend from the start listing of `P5` into its child and
come back by selecting the synthetic parent. -/
theorem C5_witness :
    interactiveStep P5 (navInit P5 "plugin://a/") 0
      = .next (navAfter P5
          (Item.fromDict ".." (navInit P5 "plugin://a/").currentUrl
            :: (navInit P5 "plugin://a/").parentStack)
          (((navInit P5 "plugin://a/").items.getD 0 dummyItem)).path) ∧
    interactiveStep P5
        (navAfter P5
          (Item.fromDict ".." (navInit P5 "plugin://a/").currentUrl
            :: (navInit P5 "plugin://a/").parentStack)
          (((navInit P5 "plugin://a/").items.getD 0 dummyItem)).path) 0
      = .next (navAfter P5 (navInit P5 "plugin://a/").parentStack
          (navInit P5 "plugin://a/").currentUrl) ∧
    (navAfter P5 (navInit P5 "plugin://a/").parentStack
        (navInit P5 "plugin://a/").currentUrl).currentUrl
      = (navInit P5 "plugin://a/").currentUrl :=
  C5_parent_round_trip P5 (navInit P5 "plugin://a/") 0 (by decide) rfl rfl

/-- C6: played-item exclusion.  Every item the interactive loop offers to the
user-choice prompt — in the initial listing and after any successful step —
has `played = false`; items with `played = true` are filtered out. -/
theorem C6_played_items_excluded (P : PluginModel) (start : String)
    (s : NavState) (i : Nat) (s' : NavState)
    (hstep : interactiveStep P s i = .next s') :
    ((navInit P start).items.all fun it => !it.played) = true ∧
    (s'.items.all fun it => !it.played) = true := by
  refine ⟨navAfter_all_unplayed P [] start, ?_⟩
  simp only [interactiveStep] at hstep
  split at hstep
  · split at hstep
    · split at hstep
      · injection hstep with h
        exact h ▸ navAfter_all_unplayed _ _ _
      · exact absurd hstep (by simp)
    · split at hstep
      · injection hstep with h
        exact h ▸ navAfter_all_unplayed _ _ _
      · exact absurd hstep (by simp)
  · split at hstep
    · injection hstep with h
      exact h ▸ navAfter_all_unplayed _ _ _
    · injection hstep with h
      exact h ▸ navAfter_all_unplayed _ _ _

/-- Witness for C6: from `P6`, whose listings contain a played item, the
initial listing and the listing after one step both expose no played item. -/
theorem C6_witness :
    ((navInit P6 "plugin://a/").items.all fun it => !it.played) = true ∧
    ((navAfter P6 [Item.fromDict ".." "plugin://a/"] "plugin://a/q").items.all
        fun it => !it.played) = true :=
  C6_played_items_excluded P6 "plugin://a/" (navInit P6 "plugin://a/") 0
    (navAfter P6 [Item.fromDict ".." "plugin://a/"] "plugin://a/q") (by decide)

/-- One crawl iteration keeps the frontier and visited sets inside the path
universe `U`, keeps them disjoint, and grows the visited set by exactly one. -/
theorem crawlStep_invariant (P : PluginModel) (choose : Finset String → String)
    (U : Finset String) (hc : validChoice choose)
    (hclosed : ∀ p ∈ U, pathsOf (P.listing p) ⊆ U)
    (st : CrawlState) (hfr : st.frontier ⊆ U) (hvis : st.visited ⊆ U)
    (hdis : Disjoint st.frontier st.visited) (hne : st.frontier ≠ ∅) :
    (crawlStep P choose st).frontier ⊆ U ∧
    (crawlStep P choose st).visited ⊆ U ∧
    Disjoint (crawlStep P choose st).frontier (crawlStep P choose st).visited ∧
    (crawlStep P choose st).visited.card = st.visited.card + 1 := by
  have hpmem : choose st.frontier ∈ st.frontier :=
    hc _ (Finset.nonempty_iff_ne_empty.mpr hne)
  have hpU : choose st.frontier ∈ U := hfr hpmem
  have hpnv : choose st.frontier ∉ st.visited := Finset.disjoint_left.mp hdis hpmem
  refine ⟨?_, ?_, ?_, ?_⟩
  · simp only [crawlStep]
    refine Finset.union_subset (fun q hq => hfr (Finset.erase_subset _ _ hq)) ?_
    intro q hq
    exact hclosed _ hpU (Finset.mem_of_mem_filter q hq)
  · simp only [crawlStep]
    exact Finset.insert_subset hpU hvis
  · simp only [crawlStep]
    rw [Finset.disjoint_left]
    intro q hq hq'
    rcases Finset.mem_union.mp hq with hq1 | hq2
    · rcases Finset.mem_insert.mp hq' with rfl | hq'2
      · exact absurd (Finset.mem_erase.mp hq1).1 (by simp)
      · exact Finset.disjoint_left.mp hdis (Finset.erase_subset _ _ hq1) hq'2
    · exact absurd hq' (Finset.mem_filter.mp hq2).2
  · simp only [crawlStep]
    exact Finset.card_insert_of_not_mem hpnv

/-- Running the crawl with enough fuel empties the frontier: each iteration
moves a fresh path into `visited ⊆ U`, so at most `U.card` iterations occur. -/
theorem crawlRun_empties_frontier (P : PluginModel)
    (choose : Finset String → String) (U : Finset String)
    (hc : validChoice choose)
    (hclosed : ∀ p ∈ U, pathsOf (P.listing p) ⊆ U) :
    ∀ n st, st.frontier ⊆ U → st.visited ⊆ U → Disjoint st.frontier st.visited →
      U.card - st.visited.card < n →
      (crawlRun P choose n st).frontier = ∅ := by
  intro n
  induction n with
  | zero =>
    intro st _ _ _ hlt
    exact absurd hlt (Nat.not_lt_zero _)
  | succ n ih =>
    intro st hfr hvis hdis hlt
    by_cases hne : st.frontier = ∅
    · simp [crawlRun, hne]
    · have hstep := crawlStep_invariant P choose U hc hclosed st hfr hvis hdis hne
      have hle : (crawlStep P choose st).visited.card ≤ U.card :=
        Finset.card_le_card hstep.2.1
      rw [crawlRun_succ, if_neg hne]
      refine ih _ hstep.1 hstep.2.1 hstep.2.2.1 ?_
      rw [hstep.2.2.2]
      rw [hstep.2.2.2] at hle
      omega

/-- C3: termination of crawl mode.  For any plugin whose reachable path
universe is a finite set `U` (the start listing's paths lie in `U` and every
listing of a path in `U` only mentions paths in `U`), any valid pop
strategy, and an always-confirming user, the frontier eventually becomes
empty and the loop exits. -/
theorem C3_crawl_terminates (P : PluginModel) (start : String)
    (choose : Finset String → String) (U : Finset String)
    (hc : validChoice choose)
    (hstart : pathsOf (P.listing start) ⊆ U)
    (hclosed : ∀ p ∈ U, pathsOf (P.listing p) ⊆ U) :
    ∃ n, (crawlRun P choose n (crawlInit P start)).frontier = ∅ :=
  ⟨U.card + 1,
    crawlRun_empties_frontier P choose U hc hclosed (U.card + 1) (crawlInit P start)
      hstart (Finset.empty_subset U) (Finset.disjoint_empty_right _)
      (Nat.lt_succ_of_le (Nat.sub_le _ _))⟩

/-- Witness for C3: the empty-listing plugin crawled from `plugin://t/`. -/
theorem C3_witness :
    ∃ n, (crawlRun Ptriv minChoose n (crawlInit Ptriv "plugin://t/")).frontier = ∅ :=
  C3_crawl_terminates Ptriv "plugin://t/" minChoose ∅ minChoose_valid
    (by decide) (by decide)

/-- C8: on the scenario graph `P8`, whatever valid pop order the frontier
yields (`x` before `y` or `y` before `x`), a crawl from `plugin://a/` with an
always-confirming user calls the Plugin Invoker exactly three times — once
each for `plugin://a/`, `plugin://a/x`, `plugin://a/y` — and in particular
never a second time for `plugin://a/x` after `plugin://a/y` re-discovers it;
the loop then exits with an empty frontier. -/
theorem C8_crawl_scenario (choose : Finset String → String) (hc : validChoice choose) :
    (crawlRun P8 choose 3 (crawlInit P8 "plugin://a/")).fetched.length = 3 ∧
    (crawlRun P8 choose 3 (crawlInit P8 "plugin://a/")).fetched.count "plugin://a/" = 1 ∧
    (crawlRun P8 choose 3 (crawlInit P8 "plugin://a/")).fetched.count "plugin://a/x" = 1 ∧
    (crawlRun P8 choose 3 (crawlInit P8 "plugin://a/")).fetched.count "plugin://a/y" = 1 ∧
    (crawlRun P8 choose 3 (crawlInit P8 "plugin://a/")).frontier = ∅ := by
  have h0 : choose (crawlInit P8 "plugin://a/").frontier
      ∈ (crawlInit P8 "plugin://a/").frontier :=
    hc _ ⟨"plugin://a/x", by decide⟩
  have hfr0 : (crawlInit P8 "plugin://a/").frontier
      = {"plugin://a/x", "plugin://a/y"} := by decide
  rw [hfr0] at h0
  rcases Finset.mem_insert.mp h0 with hx | hmem
  · -- the frontier yields x first
    have hx' : choose (crawlInit P8 "plugin://a/").frontier = "plugin://a/x" := by
      rw [hfr0]; exact hx
    have s1 : crawlStep P8 choose (crawlInit P8 "plugin://a/")
        = { visited := {"plugin://a/x"}, frontier := {"plugin://a/y"},
            fetched := ["plugin://a/", "plugin://a/x"] } := by
      simp only [crawlStep, hx']
      decide
    have hy : choose ({"plugin://a/y"} : Finset String) = "plugin://a/y" :=
      Finset.mem_singleton.mp (hc _ ⟨"plugin://a/y", by decide⟩)
    have s2 : crawlStep P8 choose
        { visited := {"plugin://a/x"}, frontier := {"plugin://a/y"},
          fetched := ["plugin://a/", "plugin://a/x"] }
        = { visited := {"plugin://a/y", "plugin://a/x"}, frontier := ∅,
            fetched := ["plugin://a/", "plugin://a/x", "plugin://a/y"] } := by
      simp only [crawlStep, hy]
      decide
    have run : crawlRun P8 choose 3 (crawlInit P8 "plugin://a/")
        = { visited := {"plugin://a/y", "plugin://a/x"}, frontier := ∅,
            fetched := ["plugin://a/", "plugin://a/x", "plugin://a/y"] } := by
      rw [crawlRun_succ, if_neg (by decide), s1,
          crawlRun_succ, if_neg (by decide), s2,
          crawlRun_succ, if_pos (by decide)]
    rw [run]
    decide
  · -- the frontier yields y first
    have hy' : choose (crawlInit P8 "plugin://a/").frontier = "plugin://a/y" := by
      rw [hfr0]; exact Finset.mem_singleton.mp hmem
    have s1 : crawlStep P8 choose (crawlInit P8 "plugin://a/")
        = { visited := {"plugin://a/y"}, frontier := {"plugin://a/x"},
            fetched := ["plugin://a/", "plugin://a/y"] } := by
      simp only [crawlStep, hy']
      decide
    have hx : choose ({"plugin://a/x"} : Finset String) = "plugin://a/x" :=
      Finset.mem_singleton.mp (hc _ ⟨"plugin://a/x", by decide⟩)
    have s2 : crawlStep P8 choose
        { visited := {"plugin://a/y"}, frontier := {"plugin://a/x"},
          fetched := ["plugin://a/", "plugin://a/y"] }
        = { visited := {"plugin://a/x", "plugin://a/y"}, frontier := ∅,
            fetched := ["plugin://a/", "plugin://a/y", "plugin://a/x"] } := by
      simp only [crawlStep, hx]
      decide
    have run : crawlRun P8 choose 3 (crawlInit P8 "plugin://a/")
        = { visited := {"plugin://a/x", "plugin://a/y"}, frontier := ∅,
            fetched := ["plugin://a/", "plugin://a/y", "plugin://a/x"] } := by
      rw [crawlRun_succ, if_neg (by decide), s1,
          crawlRun_succ, if_neg (by decide), s2,
          crawlRun_succ, if_pos (by decide)]
    rw [run]
    decide

/-- Witness for C8: the scenario crawl with the least-element pop strategy. -/
theorem C8_witness :
    (crawlRun P8 minChoose 3 (crawlInit P8 "plugin://a/")).fetched.length = 3 ∧
    (crawlRun P8 minChoose 3 (crawlInit P8 "plugin://a/")).fetched.count "plugin://a/" = 1 ∧
    (crawlRun P8 minChoose 3 (crawlInit P8 "plugin://a/")).fetched.count "plugin://a/x" = 1 ∧
    (crawlRun P8 minChoose 3 (crawlInit P8 "plugin://a/")).fetched.count "plugin://a/y" = 1 ∧
    (crawlRun P8 minChoose 3 (crawlInit P8 "plugin://a/")).frontier = ∅ :=
  C8_crawl_scenario minChoose minChoose_valid

end App
